import Mathlib

/-
Shallow embedding of the EP0 control-transfer engine of the tomu bootloader
(src/toboot/usb_dev.c).

Modelling conventions:
 - Machine integers are modelled as Nat.  The only places where 32-bit
   wrap-around can actually occur in the source are the two unsigned
   subtractions (the cursor update in handle_datastage_out and the chunk-size
   computation in handle_out0); those are modelled with an explicit mod 2^32
   subtraction (sub32).  All other arithmetic stays within the ranges of the
   C types, which is expressed as hypotheses on the theorems.
 - Pointers are modelled as Nat addresses.  The three static buffers of the
   engine are given fixed symbolic base addresses (ctrl_send_buf is declared
   with an aligned(4) attribute in the source, so its address is a multiple
   of 4).
 - Calls into the hardware endpoint driver (efm32hg_prepare_ep0_setup,
   efm32hg_prepare_ep0_out, efm32hg_prepare_ep0_in, efm32hg_ep_out_stall,
   efm32hg_ep_in_stall, efm32hg_set_daddr) and into the DFU flash backend
   (dfu_download, dfu_getstatus, dfu_clrstatus, dfu_getstate, dfu_abort) are
   recorded in an action trace, in the order the source performs them.  The
   memcpy into ctrl_send_buf is also recorded as an action carrying the copy
   length, so that buffer-bound properties can be stated about it.
 - The DIEP0CTL STALL bit (set by SET_FEATURE and efm32hg_ep_in_stall,
   cleared by CLEAR_FEATURE, read by GET_STATUS(endpoint)) is tracked as a
   boolean register field of the engine state.  The low two bits of
   DIEP0CTL/DOEP0CTL (the MPS field, read as 64 >> (CTL & 3) in the source)
   are environment parameters; usb_core_init writes 0 to both registers, so
   the packet size is 64 in every run of the program.
 - The interrupt-acknowledge register writes inside USB_Handler and the
   debug instrumentation in handle_datastage_out (the lens/pktsizes arrays
   and the bkpt instructions) do not affect the control logic and are not
   modelled.
 - The results of the DFU flash backend, the descriptor table
   (usb_descriptor_list, a collaborator from usb_desc.c), the byte read
   *(list->addr) for string descriptors, MSFT_VENDOR_CODE and the WCID
   descriptor are collaborators outside this file and are supplied by an
   environment record.
-/

namespace Toboot

/-- Mod-2^32 base for the unsigned subtractions of the source. -/
def M32 : Nat := 4294967296

/-- Unsigned 32-bit subtraction: a - b computed mod 2^32. -/
def sub32 (a b : Nat) : Nat := (a + (M32 - b % M32)) % M32

/-- Packet size as the source computes it from an endpoint CTL register:
64 >> (CTL & 3).  usb_core_init sets the CTL registers to 0, so this is 64
at runtime. -/
def pktsizeOf (bits : Nat) : Nat := 64 >>> (bits % 4)

/-- EP0_SIZE from usb_desc.h.  Modelled from the spec: usb_desc.h is not in
the sources; the spec fixes the max packet size of the control endpoint to
64 bytes for full speed, matching USB_MAX_PACKET_SIZE in usb_dev.c. -/
def EP0_SIZE : Nat := 64

/-- Base address of the 64-byte rx_buffer used for DFU OUT data. -/
def rxA : Nat := 0x4000

/-- Base address of the 64-byte aligned(4) ctrl_send_buf staging buffer. -/
def ctrlSendBufA : Nat := 0x1000

/-- Base address of the 8-byte reply_buffer. -/
def replyA : Nat := 0x3000

/-- The decoded SETUP packet (struct device_req). -/
structure DeviceReq where
  wRequestAndType : Nat
  wValue : Nat
  wIndex : Nat
  wLength : Nat
deriving Repr, DecidableEq

/-- The control pipe states (enum CONTROL_STATE). -/
inductive CONTROL_STATE where
  | WAIT_SETUP
  | IN_DATA
  | OUT_DATA
  | LAST_IN_DATA
  | WAIT_STATUS_IN
  | WAIT_STATUS_OUT
  | STALLED
deriving Repr, DecidableEq

/-- The in-flight data-phase cursor (struct ctrl_data). -/
structure CtrlData where
  addr : Nat
  len : Nat
  require_zlp : Bool
deriving Repr, DecidableEq

/-- The per-device state (struct usb_dev). -/
structure UsbDev where
  state : CONTROL_STATE
  dev_req : DeviceReq
  ctrl_data : CtrlData
deriving Repr, DecidableEq

/-- Calls made by the engine into the hardware endpoint driver and the DFU
flash backend, in source order. -/
inductive Action where
  | prepareSetup
  | prepareOut (addr len : Nat)
  | prepareIn (addr len : Nat)
  | stallOut (ep : Nat)
  | stallIn (ep : Nat)
  | setDaddr (a : Nat)
  | memcpyCtrlSendBuf (src len : Nat)
  | dfuDownload (blockNum blockLength packetOffset packetLength addr : Nat)
  | dfuGetStatus
  | dfuClrStatus
  | dfuGetState
  | dfuAbort
deriving Repr, DecidableEq

/-- One entry of the descriptor table usb_descriptor_list (usb_desc.c). -/
structure DescEntry where
  wValue : Nat
  addr : Nat
  length : Nat
deriving Repr, DecidableEq

/-- The two MPS register fields read as 64 >> (CTL & 3). -/
structure Hw where
  diepBits : Nat
  doepBits : Nat

/-- External collaborators: register MPS bits, the DFU flash backend, the
descriptor table and the vendor descriptor. -/
structure Env where
  hw : Hw
  dfu_download : Nat → Nat → Nat → Nat → Nat → Bool
  dfu_getstatus_ok : Bool
  dfu_status6 : List Nat
  dfu_clrstatus_ok : Bool
  dfu_getstate_val : Nat
  dfu_abort_ok : Bool
  msftVendorCode : Nat
  wcidAddr : Nat
  wcidLen : Nat
  descs : List DescEntry
  memByte : Nat → Nat

/-- The global state owned by the event-handling path: the device context,
last_setup, ep0_rx_offset, usb_configuration, the DIEP0CTL STALL bit and the
reply buffer contents. -/
structure Engine where
  dev : UsbDev
  last_setup : DeviceReq
  ep0_rx_offset : Nat
  usb_configuration : Nat
  diep0ctl_stall : Bool
  reply_buffer : List Nat
deriving Repr, DecidableEq

/-- Linear scan of usb_descriptor_list: stops at a NULL addr sentinel,
matches on wValue. -/
def findDesc : List DescEntry → Nat → Option DescEntry
  | [], _ => none
  | d :: ds, v =>
    if d.addr = 0 then none
    else if v = d.wValue then some d
    else findDesc ds v

/-- handle_datastage_out: consume a completed OUT packet of the data phase.
rxLen is the value read from DOEP0TSIZ (masked with 0x7F by the source). -/
def handle_datastage_out (hw : Hw) (rxLen : Nat) (dev : UsbDev) :
    UsbDev × List Action :=
  let pktsize := pktsizeOf hw.diepBits
  let len0 := rxLen % 128
  let cl := sub32 dev.ctrl_data.len len0
  let ca := dev.ctrl_data.addr + len0
  let l := min cl pktsize
  if cl = 0 then
    ({dev with state := CONTROL_STATE.WAIT_STATUS_IN,
               ctrl_data := {dev.ctrl_data with addr := ca, len := cl}},
     [Action.prepareSetup, Action.prepareIn 0 0])
  else
    ({dev with state := CONTROL_STATE.OUT_DATA,
               ctrl_data := {dev.ctrl_data with addr := ca, len := cl}},
     [Action.prepareOut ca l])

/-- handle_datastage_in: a packet of the IN data phase completed; send the
next chunk, the terminating zero-length packet, or arm the status OUT. -/
def handle_datastage_in (hw : Hw) (dev : UsbDev) : UsbDev × List Action :=
  let l := pktsizeOf hw.doepBits
  if dev.ctrl_data.len = 0 ∧ dev.state = CONTROL_STATE.LAST_IN_DATA then
    if dev.ctrl_data.require_zlp then
      ({dev with ctrl_data := {dev.ctrl_data with require_zlp := false}},
       [Action.prepareSetup, Action.prepareIn 0 0])
    else
      ({dev with state := CONTROL_STATE.WAIT_STATUS_OUT},
       [Action.prepareOut 0 0])
  else
    let st := if dev.ctrl_data.len ≤ l then CONTROL_STATE.LAST_IN_DATA
              else CONTROL_STATE.IN_DATA
    let l2 := min l dev.ctrl_data.len
    ({dev with state := st,
               ctrl_data := {dev.ctrl_data with
                              addr := dev.ctrl_data.addr + l2,
                              len := dev.ctrl_data.len - l2}},
     [Action.prepareSetup, Action.prepareIn dev.ctrl_data.addr l2])

/-- usb_lld_ctrl_recv: arm an OUT reception of up to len bytes into p. -/
def usb_lld_ctrl_recv (hw : Hw) (p len : Nat) (dev : UsbDev) :
    UsbDev × List Action :=
  let pktsize := pktsizeOf hw.diepBits
  let l := min len pktsize
  ({dev with state := CONTROL_STATE.OUT_DATA,
             ctrl_data := {dev.ctrl_data with addr := p, len := len}},
   [Action.prepareOut p l])

/-- usb_lld_ctrl_ack: arm the zero-length IN status handshake. -/
def usb_lld_ctrl_ack (dev : UsbDev) : UsbDev × List Action :=
  ({dev with state := CONTROL_STATE.WAIT_STATUS_IN},
   [Action.prepareSetup, Action.prepareIn 0 0])

/-- usb_lld_ctrl_send: start an IN data phase sending buflen bytes at buf,
clamped to the wLength of the current request.  An unaligned buffer whose
clamped length fits in one packet is staged through ctrl_send_buf (the
memcpy copies buflen bytes, as in the source). -/
def usb_lld_ctrl_send (hw : Hw) (buf buflen : Nat) (dev : UsbDev) :
    UsbDev × List Action :=
  let len_asked := dev.dev_req.wLength
  let pktsize := pktsizeOf hw.diepBits
  let l0 := min buflen len_asked
  let zlp : Bool := (l0 != 0) && (l0 % pktsize == 0)
  let staged := buf % 4 ≠ 0 ∧ l0 ≤ pktsize
  let addr1 := if staged then ctrlSendBufA else buf
  let acts0 := if staged then [Action.memcpyCtrlSendBuf buf buflen] else []
  let l := if l0 < pktsize then l0 else pktsize
  let st := if l0 < pktsize then CONTROL_STATE.LAST_IN_DATA
            else CONTROL_STATE.IN_DATA
  ({dev with state := st,
             ctrl_data := ⟨addr1 + l, l0 - l, zlp⟩},
   acts0 ++ [Action.prepareIn addr1 l])

/-- usb_lld_ctrl_error: stall EP0 in both directions and resynchronize to
WAIT_SETUP (the STALLED state is assigned and immediately overwritten). -/
def usb_lld_ctrl_error (e : Engine) : Engine × List Action :=
  ({e with dev := {e.dev with state := CONTROL_STATE.WAIT_SETUP},
           diep0ctl_stall := true},
   [Action.stallOut 0, Action.stallIn 0, Action.prepareSetup])

/-- handle_out0: an OUT transfer on EP0 completed (no SETUP packet). -/
def handle_out0 (env : Env) (rxLen : Nat) (e : Engine) :
    Engine × List Action :=
  if e.dev.state = CONTROL_STATE.OUT_DATA then
    let p := handle_datastage_out env.hw rxLen e.dev
    let e1 : Engine := {e with dev := p.1}
    if e.last_setup.wRequestAndType = 0x0121 then
      if e.last_setup.wIndex ≠ 0 ∧ e.last_setup.wLength < e.ep0_rx_offset then
        let q := usb_lld_ctrl_error e1
        (q.1, p.2 ++ q.2)
      else
        let size := min (sub32 e.last_setup.wLength e.ep0_rx_offset) EP0_SIZE
        if env.dfu_download e.last_setup.wValue e.last_setup.wLength
             e.ep0_rx_offset size e1.dev.ctrl_data.addr then
          let e2 : Engine := {e1 with ep0_rx_offset := (e.ep0_rx_offset + size) % M32}
          if e.last_setup.wLength ≤ e2.ep0_rx_offset then
            let q := usb_lld_ctrl_ack e2.dev
            ({e2 with dev := q.1},
             p.2 ++ [Action.dfuDownload e.last_setup.wValue e.last_setup.wLength
                       e.ep0_rx_offset size e1.dev.ctrl_data.addr] ++ q.2)
          else
            (e2, p.2 ++ [Action.dfuDownload e.last_setup.wValue e.last_setup.wLength
                           e.ep0_rx_offset size e1.dev.ctrl_data.addr])
        else
          let q := usb_lld_ctrl_error e1
          (q.1, p.2 ++ [Action.dfuDownload e.last_setup.wValue e.last_setup.wLength
                          e.ep0_rx_offset size e1.dev.ctrl_data.addr] ++ q.2)
    else
      (e1, p.2)
  else if e.dev.state = CONTROL_STATE.WAIT_STATUS_OUT then
    ({e with dev := {e.dev with state := CONTROL_STATE.WAIT_SETUP},
             ep0_rx_offset := 0},
     [Action.prepareSetup])
  else
    ({e with dev := {e.dev with state := CONTROL_STATE.WAIT_SETUP},
             diep0ctl_stall := true},
     [Action.stallOut 0, Action.stallIn 0, Action.prepareSetup])

/-- handle_in0: an IN transfer on EP0 completed. -/
def handle_in0 (env : Env) (e : Engine) : Engine × List Action :=
  if e.dev.state = CONTROL_STATE.IN_DATA ∨
     e.dev.state = CONTROL_STATE.LAST_IN_DATA then
    let p := handle_datastage_in env.hw e.dev
    ({e with dev := p.1}, p.2)
  else if e.dev.state = CONTROL_STATE.WAIT_STATUS_IN then
    ({e with dev := {e.dev with state := CONTROL_STATE.WAIT_SETUP}},
     [Action.prepareSetup])
  else
    ({e with dev := {e.dev with state := CONTROL_STATE.WAIT_SETUP},
             diep0ctl_stall := true},
     [Action.stallOut 0, Action.stallIn 0, Action.prepareSetup])

/-- Writes the six status bytes of dfu_getstatus into the reply buffer. -/
def write6 (rb bytes : List Nat) : List Nat := bytes.take 6 ++ rb.drop 6

/-- The send label at the end of usb_setup: send a reply if there is one,
else acknowledge with a zero-length IN. -/
def finishSend (hw : Hw) (e : Engine) (dataAddr datalen : Nat)
    (pre : List Action) : Engine × List Action :=
  if dataAddr ≠ 0 ∧ datalen ≠ 0 then
    let p := usb_lld_ctrl_send hw dataAddr datalen e.dev
    ({e with dev := p.1}, pre ++ p.2)
  else
    let p := usb_lld_ctrl_ack e.dev
    ({e with dev := p.1}, pre ++ p.2)

/-- usb_setup: decode and dispatch the SETUP packet in dev_req.  The switch
of the source is rendered as an equality chain on wRequestAndType; the
Microsoft vendor labels (MSFT_VENDOR_CODE << 8) | 0xC0/0xC1 are the numbers
msftVendorCode * 256 + 0xC0/0xC1. -/
def usb_setup (env : Env) (e0 : Engine) : Engine × List Action :=
  let r := e0.dev.dev_req
  let e : Engine := {e0 with last_setup := r}
  let rt := r.wRequestAndType
  if rt = 0x0500 then
    finishSend env.hw e 0 0 [Action.setDaddr r.wValue]
  else if rt = 0x0900 then
    finishSend env.hw {e with usb_configuration := r.wValue % 256} 0 0 []
  else if rt = 0x0880 then
    finishSend env.hw
      {e with reply_buffer := e.reply_buffer.set 0 e.usb_configuration}
      replyA 1 []
  else if rt = 0x0080 then
    finishSend env.hw
      {e with reply_buffer := (e.reply_buffer.set 0 0).set 1 0}
      replyA 2 []
  else if rt = 0x0082 then
    if 0 < r.wIndex then usb_lld_ctrl_error e
    else
      finishSend env.hw
        {e with reply_buffer :=
          (((e.reply_buffer.set 0 0).set 1 0).set 0
            (if e.diep0ctl_stall then 1 else 0))}
        replyA 2 []
  else if rt = 0x0102 then
    if 0 < r.wIndex ∨ r.wValue ≠ 0 then usb_lld_ctrl_error e
    else finishSend env.hw {e with diep0ctl_stall := false} 0 0 []
  else if rt = 0x0302 then
    if 0 < r.wIndex ∨ r.wValue ≠ 0 then usb_lld_ctrl_error e
    else finishSend env.hw {e with diep0ctl_stall := true} 0 0 []
  else if rt = 0x0680 ∨ rt = 0x0681 then
    match findDesc env.descs r.wValue with
    | some d =>
      let datalen := if r.wValue / 256 = 3 then env.memByte d.addr else d.length
      finishSend env.hw e d.addr datalen []
    | none => usb_lld_ctrl_error e
  else if rt = env.msftVendorCode * 256 + 0xC0 ∨
          rt = env.msftVendorCode * 256 + 0xC1 then
    if r.wIndex = 0x0004 then finishSend env.hw e env.wcidAddr env.wcidLen []
    else usb_lld_ctrl_error e
  else if rt = 0x0121 then
    if 0 < r.wIndex then usb_lld_ctrl_error e
    else if r.wLength = 0 then
      if env.dfu_download r.wValue 0 0 0 0 then
        let p := usb_lld_ctrl_recv env.hw rxA r.wLength e.dev
        ({e with dev := p.1}, Action.dfuDownload r.wValue 0 0 0 0 :: p.2)
      else
        let q := usb_lld_ctrl_error e
        (q.1, Action.dfuDownload r.wValue 0 0 0 0 :: q.2)
    else
      let p := usb_lld_ctrl_recv env.hw rxA r.wLength e.dev
      ({e with dev := p.1}, p.2)
  else if rt = 0x03a1 then
    if 0 < r.wIndex then usb_lld_ctrl_error e
    else
      let e1 : Engine := {e with reply_buffer := write6 e.reply_buffer env.dfu_status6}
      if env.dfu_getstatus_ok then
        let q := finishSend env.hw e1 replyA 6 []
        (q.1, Action.dfuGetStatus :: q.2)
      else
        let q := usb_lld_ctrl_error e1
        (q.1, Action.dfuGetStatus :: q.2)
  else if rt = 0x0421 then
    if 0 < r.wIndex then usb_lld_ctrl_error e
    else if env.dfu_clrstatus_ok then
      let q := finishSend env.hw e 0 0 []
      (q.1, Action.dfuClrStatus :: q.2)
    else
      let q := usb_lld_ctrl_error e
      (q.1, Action.dfuClrStatus :: q.2)
  else if rt = 0x05a1 then
    if 0 < r.wIndex then usb_lld_ctrl_error e
    else
      let q := finishSend env.hw
        {e with reply_buffer := e.reply_buffer.set 0 (env.dfu_getstate_val % 256)}
        replyA 1 []
      (q.1, Action.dfuGetState :: q.2)
  else if rt = 0x0621 then
    if 0 < r.wIndex then usb_lld_ctrl_error e
    else if env.dfu_abort_ok then
      let q := finishSend env.hw e 0 0 []
      (q.1, Action.dfuAbort :: q.2)
    else
      let q := usb_lld_ctrl_error e
      (q.1, Action.dfuAbort :: q.2)
  else
    usb_lld_ctrl_error e

/-- The EP0 events USB_Handler demultiplexes: a SETUP packet (decoded from
ep0_setup_pkt), an OUT completion without SETUP (carrying the DOEP0TSIZ
residue), and an IN completion. -/
inductive Ev where
  | setup (r : DeviceReq)
  | out0 (rxLen : Nat)
  | in0
deriving Repr, DecidableEq

/-- The EP0 dispatch of USB_Handler: SETUP events go to usb_setup; OUT
completions go to handle_out0 unless the device is resting in WAIT_SETUP,
in which case they are ignored; IN completions go to handle_in0. -/
def step (env : Env) (e : Engine) : Ev → Engine × List Action
  | Ev.setup r => usb_setup env {e with dev := {e.dev with dev_req := r}}
  | Ev.out0 n =>
    if e.dev.state ≠ CONTROL_STATE.WAIT_SETUP then handle_out0 env n e
    else (e, [])
  | Ev.in0 => handle_in0 env e

/-- Drive a sequence of hardware events through the engine, collecting the
action trace. -/
def runEvs (env : Env) : List Ev → Engine → Engine × List Action
  | [], e => (e, [])
  | ev :: evs, e =>
    let p := step env e ev
    let q := runEvs env evs p.1
    (q.1, p.2 ++ q.2)

/-- Drive IN completions while an IN data phase is in progress (the host
keeps issuing IN tokens until the data phase ends). -/
def inPhase (env : Env) : Nat → Engine → Engine × List Action
  | 0, e => (e, [])
  | fuel+1, e =>
    if e.dev.state = CONTROL_STATE.IN_DATA ∨
       e.dev.state = CONTROL_STATE.LAST_IN_DATA then
      let p := handle_in0 env e
      let q := inPhase env fuel p.1
      (q.1, p.2 ++ q.2)
    else (e, [])

/-- A complete control IN transfer: usb_lld_ctrl_send followed by the IN
data phase run to completion. -/
def sendPhase (env : Env) (fuel buf buflen : Nat) (e : Engine) :
    Engine × List Action :=
  let p := usb_lld_ctrl_send env.hw buf buflen e.dev
  let q := inPhase env fuel {e with dev := p.1}
  (q.1, p.2 ++ q.2)

/-- Drive a sequence of OUT completions (the OUT packets of a control WRITE
data phase). -/
def runOuts (env : Env) : List Nat → Engine → Engine × List Action
  | [], e => (e, [])
  | n :: ns, e =>
    let p := step env e (Ev.out0 n)
    let q := runOuts env ns p.1
    (q.1, p.2 ++ q.2)

/-- The lengths of the IN packets armed in a trace. -/
def inLens (as : List Action) : List Nat :=
  as.filterMap (fun a => match a with
    | Action.prepareIn _ n => some n
    | _ => none)

/-- The backend chunk calls of a trace: (blockNum, blockLength,
packetOffset, packetLength). -/
def dfuCalls (as : List Action) : List (Nat × Nat × Nat × Nat) :=
  as.filterMap (fun a => match a with
    | Action.dfuDownload b l o s _ => some (b, l, o, s)
    | _ => none)

/-- Checks that every packet length in the list is the minimum of the bytes
remaining before that packet and the 64-byte max packet size. -/
def eachMin : Nat → List Nat → Bool
  | _, [] => true
  | rem, l :: ls => (l == min rem 64) && eachMin (rem - l) ls

/-- Expected driver-call trace of an IN data phase continued from state
IN_DATA with r bytes remaining at address a and zero-length-packet flag z
(packet size 64). -/
def actsFrom (r a : Nat) (z : Bool) : List Action :=
  if h : 64 < r then
    Action.prepareSetup :: Action.prepareIn a 64 :: actsFrom (r - 64) (a + 64) z
  else if z then
    [Action.prepareSetup, Action.prepareIn a r,
     Action.prepareSetup, Action.prepareIn 0 0,
     Action.prepareOut 0 0]
  else
    [Action.prepareSetup, Action.prepareIn a r, Action.prepareOut 0 0]
termination_by r

/-- The IN packet lengths of actsFrom. -/
def lensFrom (r : Nat) (z : Bool) : List Nat :=
  if h : 64 < r then 64 :: lensFrom (r - 64) z
  else if z then [r, 0]
  else [r]
termination_by r

/-- The IN packet lengths of a whole control IN transfer with clamped total
t = min(buflen, wLength). -/
def phaseLens (t : Nat) : List Nat :=
  if t < 64 then [t] else 64 :: lensFrom (t - 64) (t % 64 == 0)

/-- The OUT packet sizes a host uses to deliver an n-byte control WRITE
payload: packets of min(remaining, 64) bytes. -/
def outChunks (n : Nat) : List Nat :=
  if h : 64 < n then 64 :: outChunks (n - 64) else [n]
termination_by n

/-- Expected driver/backend trace of the OUT data phase of a DFU_DNLOAD of
total length N, continued from cumulative offset c (one trace segment per
remaining packet). -/
def dnActs (bn N c : Nat) : List Action :=
  if h : 64 < N - c then
    Action.prepareOut (rxA + c + 64) (min (N - c - 64) 64) ::
    Action.dfuDownload bn N c 64 (rxA + c + 64) ::
    dnActs bn N (c + 64)
  else
    [Action.prepareSetup, Action.prepareIn 0 0,
     Action.dfuDownload bn N c (N - c) (rxA + N),
     Action.prepareSetup, Action.prepareIn 0 0]
termination_by N - c

/-- The backend chunk calls of dnActs. -/
def dnCalls (bn N c : Nat) : List (Nat × Nat × Nat × Nat) :=
  if h : 64 < N - c then (bn, N, c, 64) :: dnCalls bn N (c + 64)
  else [(bn, N, c, N - c)]
termination_by N - c

/-- Resynchronization discipline of the error paths: a handler never rests
in STALLED, and whenever it stalls EP0 it stalls both directions, rests in
WAIT_SETUP and re-arms SETUP reception as its final driver call. -/
def errorResync (e2 : Engine) (as : List Action) : Prop :=
  e2.dev.state ≠ CONTROL_STATE.STALLED ∧
  (Action.stallOut 0 ∈ as →
    e2.dev.state = CONTROL_STATE.WAIT_SETUP ∧
    Action.stallIn 0 ∈ as ∧
    as.getLast? = some Action.prepareSetup) ∧
  (Action.stallIn 0 ∈ as → Action.stallOut 0 ∈ as)

/-- A concrete environment: packet size 64 (CTL registers as usb_core_init
leaves them), a DFU backend that accepts everything, an empty descriptor
table. -/
def env0 : Env where
  hw := ⟨0, 0⟩
  dfu_download := fun _ _ _ _ _ => true
  dfu_getstatus_ok := true
  dfu_status6 := [0, 0, 0, 0, 0, 0]
  dfu_clrstatus_ok := true
  dfu_getstate_val := 2
  dfu_abort_ok := true
  msftVendorCode := 0x20
  wcidAddr := 0x5000
  wcidLen := 40
  descs := []
  memByte := fun _ => 0

/-- env0 with a DFU backend that rejects every download chunk. -/
def envRej : Env := {env0 with dfu_download := fun _ _ _ _ _ => false}

/-- The engine state after enumeration: resting in WAIT_SETUP with cleared
context. -/
def eng0 : Engine where
  dev := ⟨CONTROL_STATE.WAIT_SETUP, ⟨0, 0, 0, 0⟩, ⟨0, 0, false⟩⟩
  last_setup := ⟨0, 0, 0, 0⟩
  ep0_rx_offset := 0
  usb_configuration := 0
  diep0ctl_stall := false
  reply_buffer := [0, 0, 0, 0, 0, 0, 0, 0]

lemma sub32_of_le {a b : Nat} (h : b ≤ a) (h2 : a < M32) : sub32 a b = a - b := by
  simp only [sub32, M32] at *
  omega

lemma pktsizeOf_zero : pktsizeOf 0 = 64 := rfl

lemma handle_in0_inData (env : Env) (hdo : pktsizeOf env.hw.doepBits = 64)
    (e : Engine) (a r : Nat) (z : Bool)
    (hst : e.dev.state = CONTROL_STATE.IN_DATA)
    (hcd : e.dev.ctrl_data = ⟨a, r, z⟩) :
    handle_in0 env e =
      if 64 < r then
        ({e with dev := {e.dev with
            state := CONTROL_STATE.IN_DATA, ctrl_data := ⟨a + 64, r - 64, z⟩}},
         [Action.prepareSetup, Action.prepareIn a 64])
      else
        ({e with dev := {e.dev with
            state := CONTROL_STATE.LAST_IN_DATA, ctrl_data := ⟨a + r, 0, z⟩}},
         [Action.prepareSetup, Action.prepareIn a r]) := by
  simp only [handle_in0, handle_datastage_in, hst, hcd, hdo]
  by_cases h64 : 64 < r
  · simp [h64, show ¬(r ≤ 64) by omega, show min 64 r = 64 by omega]
  · simp [h64, show r ≤ 64 by omega, show min 64 r = r by omega]

lemma handle_in0_last_zlp (env : Env) (e : Engine) (a : Nat)
    (hst : e.dev.state = CONTROL_STATE.LAST_IN_DATA)
    (hcd : e.dev.ctrl_data = ⟨a, 0, true⟩) :
    handle_in0 env e =
      ({e with dev := {e.dev with ctrl_data := ⟨a, 0, false⟩}},
       [Action.prepareSetup, Action.prepareIn 0 0]) := by
  simp [handle_in0, handle_datastage_in, hst, hcd]

lemma handle_in0_last_done (env : Env) (e : Engine) (a : Nat)
    (hst : e.dev.state = CONTROL_STATE.LAST_IN_DATA)
    (hcd : e.dev.ctrl_data = ⟨a, 0, false⟩) :
    handle_in0 env e =
      ({e with dev := {e.dev with state := CONTROL_STATE.WAIT_STATUS_OUT}},
       [Action.prepareOut 0 0]) := by
  simp [handle_in0, handle_datastage_in, hst, hcd]

lemma inPhase_not_data (env : Env) (fuel : Nat) (e : Engine)
    (h1 : e.dev.state ≠ CONTROL_STATE.IN_DATA)
    (h2 : e.dev.state ≠ CONTROL_STATE.LAST_IN_DATA) :
    inPhase env fuel e = (e, []) := by
  cases fuel with
  | zero => rfl
  | succ f => simp [inPhase, h1, h2]

lemma actsFrom_pos {r a : Nat} {z : Bool} (h : 64 < r) :
    actsFrom r a z =
      Action.prepareSetup :: Action.prepareIn a 64 :: actsFrom (r - 64) (a + 64) z := by
  rw [actsFrom]
  simp [h]

lemma actsFrom_neg_zlp {r a : Nat} (h : ¬ 64 < r) :
    actsFrom r a true =
      [Action.prepareSetup, Action.prepareIn a r,
       Action.prepareSetup, Action.prepareIn 0 0,
       Action.prepareOut 0 0] := by
  rw [actsFrom]
  simp [h]

lemma actsFrom_neg_nozlp {r a : Nat} (h : ¬ 64 < r) :
    actsFrom r a false =
      [Action.prepareSetup, Action.prepareIn a r, Action.prepareOut 0 0] := by
  rw [actsFrom]
  simp [h]

lemma inPhase_run (env : Env) (hdo : pktsizeOf env.hw.doepBits = 64) :
    ∀ r : Nat, ∀ fuel a : Nat, ∀ z : Bool, ∀ e : Engine,
      r / 64 + 3 ≤ fuel →
      e.dev.state = CONTROL_STATE.IN_DATA →
      e.dev.ctrl_data = ⟨a, r, z⟩ →
      inPhase env fuel e =
        ({e with dev := {e.dev with
            state := CONTROL_STATE.WAIT_STATUS_OUT, ctrl_data := ⟨a + r, 0, false⟩}},
         actsFrom r a z) := by
  intro r
  induction r using Nat.strong_induction_on with
  | _ r ih =>
    intro fuel a z e hfuel hst hcd
    obtain ⟨f, rfl⟩ : ∃ f, fuel = f + 1 := ⟨fuel - 1, by omega⟩
    rw [inPhase]
    rw [if_pos (by rw [hst]; exact Or.inl rfl)]
    rw [handle_in0_inData env hdo e a r z hst hcd]
    by_cases h64 : 64 < r
    · rw [if_pos h64]
      have hrec := ih (r - 64) (by omega) f (a + 64) z
        ({e with dev := {e.dev with
            state := CONTROL_STATE.IN_DATA, ctrl_data := ⟨a + 64, r - 64, z⟩}})
        (by omega) rfl rfl
      dsimp only
      rw [hrec, actsFrom_pos h64]
      simp [show a + 64 + (r - 64) = a + r by omega]
    · rw [if_neg h64]
      obtain ⟨f1, rfl⟩ : ∃ f1, f = f1 + 1 := ⟨f - 1, by omega⟩
      dsimp only
      rw [inPhase]
      rw [if_pos (Or.inr rfl)]
      cases z with
      | false =>
        rw [handle_in0_last_done env _ (a + r) rfl rfl]
        dsimp only
        rw [inPhase_not_data env f1 _ (by simp) (by simp)]
        rw [actsFrom_neg_nozlp h64]
        simp
      | true =>
        rw [handle_in0_last_zlp env _ (a + r) rfl rfl]
        obtain ⟨f2, rfl⟩ : ∃ f2, f1 = f2 + 1 := ⟨f1 - 1, by omega⟩
        dsimp only
        rw [inPhase]
        rw [if_pos (Or.inr rfl)]
        rw [handle_in0_last_done env _ (a + r) rfl rfl]
        dsimp only
        rw [inPhase_not_data env f2 _ (by simp) (by simp)]
        rw [actsFrom_neg_zlp h64]
        simp

lemma inLens_append (as bs : List Action) :
    inLens (as ++ bs) = inLens as ++ inLens bs := by
  simp [inLens]

lemma inLens_actsFrom : ∀ r a : Nat, ∀ z : Bool,
    inLens (actsFrom r a z) = lensFrom r z := by
  intro r
  induction r using Nat.strong_induction_on with
  | _ r ih =>
    intro a z
    by_cases h64 : 64 < r
    · rw [actsFrom_pos h64, lensFrom, dif_pos h64]
      have hih := ih (r - 64) (by omega) (a + 64) z
      simp only [inLens] at hih ⊢
      simp [hih]
    · cases z with
      | true => rw [actsFrom_neg_zlp h64, lensFrom, dif_neg h64]; simp [inLens]
      | false => rw [actsFrom_neg_nozlp h64, lensFrom, dif_neg h64]; simp [inLens]

lemma send_spec_small (env : Env) (hdi : pktsizeOf env.hw.diepBits = 64)
    (buf buflen : Nat) (d : UsbDev) (hlt : min buflen d.dev_req.wLength < 64) :
    usb_lld_ctrl_send env.hw buf buflen d =
      ({d with
          state := CONTROL_STATE.LAST_IN_DATA,
          ctrl_data := ⟨(if buf % 4 ≠ 0 then ctrlSendBufA else buf) +
                          min buflen d.dev_req.wLength, 0, false⟩},
       (if buf % 4 ≠ 0 then [Action.memcpyCtrlSendBuf buf buflen] else []) ++
         [Action.prepareIn (if buf % 4 ≠ 0 then ctrlSendBufA else buf)
            (min buflen d.dev_req.wLength)]) := by
  have hz : ((min buflen d.dev_req.wLength != 0) &&
             (min buflen d.dev_req.wLength % 64 == 0)) = false := by
    by_cases h0 : min buflen d.dev_req.wLength = 0
    · simp [h0]
    · have : min buflen d.dev_req.wLength % 64 = min buflen d.dev_req.wLength :=
        Nat.mod_eq_of_lt hlt
      simp [this, h0]
  have h64 : min buflen d.dev_req.wLength ≤ 64 := by omega
  simp only [usb_lld_ctrl_send, hdi, hz, if_pos hlt, h64, and_true]
  simp

lemma send_spec_big (env : Env) (hdi : pktsizeOf env.hw.diepBits = 64)
    (buf buflen : Nat) (d : UsbDev) (hge : ¬ min buflen d.dev_req.wLength < 64) :
    usb_lld_ctrl_send env.hw buf buflen d =
      ({d with
          state := CONTROL_STATE.IN_DATA,
          ctrl_data := ⟨(if buf % 4 ≠ 0 ∧ min buflen d.dev_req.wLength ≤ 64
                          then ctrlSendBufA else buf) + 64,
                        min buflen d.dev_req.wLength - 64,
                        (min buflen d.dev_req.wLength % 64 == 0)⟩},
       (if buf % 4 ≠ 0 ∧ min buflen d.dev_req.wLength ≤ 64
          then [Action.memcpyCtrlSendBuf buf buflen] else []) ++
         [Action.prepareIn
            (if buf % 4 ≠ 0 ∧ min buflen d.dev_req.wLength ≤ 64
               then ctrlSendBufA else buf) 64]) := by
  have hz : ((min buflen d.dev_req.wLength != 0) &&
             (min buflen d.dev_req.wLength % 64 == 0)) =
            (min buflen d.dev_req.wLength % 64 == 0) := by
    have : min buflen d.dev_req.wLength ≠ 0 := by omega
    simp [this]
  simp only [usb_lld_ctrl_send, hdi, hz, if_neg hge]

lemma sendPhase_lens (env : Env) (hdi : pktsizeOf env.hw.diepBits = 64)
    (hdo : pktsizeOf env.hw.doepBits = 64) (buf buflen fuel : Nat) (e : Engine)
    (hfuel : min buflen e.dev.dev_req.wLength / 64 + 4 ≤ fuel) :
    inLens (sendPhase env fuel buf buflen e).2 =
      phaseLens (min buflen e.dev.dev_req.wLength) ∧
    (sendPhase env fuel buf buflen e).1.dev.state = CONTROL_STATE.WAIT_STATUS_OUT ∧
    (sendPhase env fuel buf buflen e).1.dev.ctrl_data.require_zlp = false ∧
    (usb_lld_ctrl_send env.hw buf buflen e.dev).1.ctrl_data.require_zlp =
      ((min buflen e.dev.dev_req.wLength != 0) &&
       (min buflen e.dev.dev_req.wLength % 64 == 0)) := by
  by_cases hlt : min buflen e.dev.dev_req.wLength < 64
  · obtain ⟨f, rfl⟩ : ∃ f, fuel = f + 1 := ⟨fuel - 1, by omega⟩
    simp only [sendPhase, send_spec_small env hdi buf buflen e.dev hlt]
    rw [inPhase]
    rw [if_pos (Or.inr rfl)]
    rw [handle_in0_last_done env _ _ rfl rfl]
    dsimp only
    rw [inPhase_not_data env f _ (by simp) (by simp)]
    have hz : ((min buflen e.dev.dev_req.wLength != 0) &&
               (min buflen e.dev.dev_req.wLength % 64 == 0)) = false := by
      by_cases h0 : min buflen e.dev.dev_req.wLength = 0
      · simp [h0]
      · have : min buflen e.dev.dev_req.wLength % 64 =
            min buflen e.dev.dev_req.wLength := Nat.mod_eq_of_lt hlt
        simp [this, h0]
    refine ⟨?_, by simp, by simp, by simp [hz]⟩
    rw [phaseLens, if_pos hlt]
    by_cases hal : buf % 4 ≠ 0 <;> simp [hal, inLens]
  · simp only [sendPhase, send_spec_big env hdi buf buflen e.dev hlt]
    rw [inPhase_run env hdo (min buflen e.dev.dev_req.wLength - 64) fuel _ _ _
          (by omega) rfl rfl]
    have hz : ((min buflen e.dev.dev_req.wLength != 0) &&
               (min buflen e.dev.dev_req.wLength % 64 == 0)) =
              (min buflen e.dev.dev_req.wLength % 64 == 0) := by
      have : min buflen e.dev.dev_req.wLength ≠ 0 := by omega
      simp [this]
    refine ⟨?_, by simp, by simp, by simp [hz]⟩
    rw [inLens_append, inLens_actsFrom]
    rw [phaseLens, if_neg hlt]
    by_cases hal : buf % 4 ≠ 0 ∧ min buflen e.dev.dev_req.wLength ≤ 64
    · simp [hal, inLens]
    · simp only [hal, if_neg, inLens, List.filterMap_append, List.filterMap_cons,
        List.filterMap_nil, List.nil_append]
      simp

lemma lensFrom_sum : ∀ r : Nat, ∀ z : Bool, (lensFrom r z).sum = r := by
  intro r
  induction r using Nat.strong_induction_on with
  | _ r ih =>
    intro z
    rw [lensFrom]
    by_cases h64 : 64 < r
    · rw [dif_pos h64]
      simp [ih (r - 64) (by omega) z]
      omega
    · rw [dif_neg h64]
      cases z <;> simp

lemma eachMin_lensFrom : ∀ r : Nat, ∀ z : Bool, eachMin r (lensFrom r z) = true := by
  intro r
  induction r using Nat.strong_induction_on with
  | _ r ih =>
    intro z
    rw [lensFrom]
    by_cases h64 : 64 < r
    · rw [dif_pos h64]
      rw [eachMin]
      simp [show min r 64 = 64 by omega, ih (r - 64) (by omega) z]
    · rw [dif_neg h64]
      cases z <;> simp [eachMin, show min r 64 = r by omega]

lemma phaseLens_sum (t : Nat) : (phaseLens t).sum = t := by
  rw [phaseLens]
  by_cases hlt : t < 64
  · simp [hlt]
  · rw [if_neg hlt]
    simp [lensFrom_sum]
    omega

lemma eachMin_phaseLens (t : Nat) : eachMin t (phaseLens t) = true := by
  rw [phaseLens]
  by_cases hlt : t < 64
  · simp [hlt, eachMin, show min t 64 = t by omega]
  · rw [if_neg hlt]
    rw [eachMin]
    simp [show min t 64 = 64 by omega, eachMin_lensFrom]

lemma lensFrom_mult : ∀ k : Nat, 1 ≤ k →
    lensFrom (64 * k) true = List.replicate k 64 ++ [0] := by
  intro k
  induction k with
  | zero => omega
  | succ n ihn =>
    intro _
    by_cases hn : 1 ≤ n
    · rw [lensFrom, dif_pos (by omega)]
      rw [show 64 * (n + 1) - 64 = 64 * n by ring_nf; omega]
      rw [ihn hn]
      simp [List.replicate_succ]
    · have : n = 0 := by omega
      subst this
      rw [lensFrom]
      norm_num

lemma phaseLens_mult (t : Nat) (hm : t % 64 = 0) (hge : 128 ≤ t) :
    phaseLens t = List.replicate (t / 64) 64 ++ [0] := by
  rw [phaseLens, if_neg (by omega)]
  have hz : (t % 64 == 0) = true := by simp [hm]
  rw [hz]
  have h1 : t - 64 = 64 * (t / 64 - 1) := by omega
  rw [h1, lensFrom_mult (t / 64 - 1) (by omega)]
  have h2 : t / 64 = (t / 64 - 1) + 1 := by omega
  rw [h2]
  simp [List.replicate_succ]

lemma phaseLens_64 : phaseLens 64 = [64, 0, 0] := by
  rw [phaseLens, if_neg (by omega)]
  norm_num
  rw [lensFrom]
  norm_num

lemma zero_not_mem_lensFrom : ∀ r : Nat, r % 64 ≠ 0 → 0 ∉ lensFrom r false := by
  intro r
  induction r using Nat.strong_induction_on with
  | _ r ih =>
    intro hm
    rw [lensFrom]
    by_cases h64 : 64 < r
    · rw [dif_pos h64]
      simp only [List.mem_cons]
      push_neg
      exact ⟨by omega, ih (r - 64) (by omega) (by omega)⟩
    · rw [dif_neg h64]
      simp
      omega

lemma zero_not_mem_phaseLens (t : Nat) (hm : t % 64 ≠ 0) : 0 ∉ phaseLens t := by
  rw [phaseLens]
  by_cases hlt : t < 64
  · simp [hlt]
    omega
  · rw [if_neg hlt]
    have hz : (t % 64 == 0) = false := by simp [hm]
    rw [hz]
    simp only [List.mem_cons]
    push_neg
    exact ⟨by omega, zero_not_mem_lensFrom (t - 64) (by omega)⟩

lemma dnActs_pos {bn N c : Nat} (h : 64 < N - c) :
    dnActs bn N c =
      Action.prepareOut (rxA + c + 64) (min (N - c - 64) 64) ::
      Action.dfuDownload bn N c 64 (rxA + c + 64) :: dnActs bn N (c + 64) := by
  rw [dnActs]
  simp [h]

lemma dnActs_neg {bn N c : Nat} (h : ¬ 64 < N - c) :
    dnActs bn N c =
      [Action.prepareSetup, Action.prepareIn 0 0,
       Action.dfuDownload bn N c (N - c) (rxA + N),
       Action.prepareSetup, Action.prepareIn 0 0] := by
  rw [dnActs]
  simp [h]

lemma outChunks_pos {n : Nat} (h : 64 < n) :
    outChunks n = 64 :: outChunks (n - 64) := by
  rw [outChunks]
  simp [h]

lemma outChunks_neg {n : Nat} (h : ¬ 64 < n) : outChunks n = [n] := by
  rw [outChunks]
  simp [h]

lemma dn_step (env : Env) (hdi : pktsizeOf env.hw.diepBits = 64)
    (hdl : ∀ b l o s a, env.dfu_download b l o s a = true)
    (bn N c : Nat) (hcN : c < N) (hN : N < M32) (e : Engine)
    (hst : e.dev.state = CONTROL_STATE.OUT_DATA)
    (ha : e.dev.ctrl_data.addr = rxA + c)
    (hl : e.dev.ctrl_data.len = N - c)
    (hrt : e.last_setup.wRequestAndType = 0x0121)
    (hbn : e.last_setup.wValue = bn)
    (hwi : e.last_setup.wIndex = 0)
    (hwl : e.last_setup.wLength = N)
    (hoff : e.ep0_rx_offset = c)
    (n : Nat) (hn : n = min (N - c) 64) :
    step env e (Ev.out0 n) =
      if 64 < N - c then
        ({e with dev := {e.dev with state := CONTROL_STATE.OUT_DATA, ctrl_data := {e.dev.ctrl_data with addr := rxA + c + 64, len := N - c - 64}}, ep0_rx_offset := c + 64},
         [Action.prepareOut (rxA + c + 64) (min (N - c - 64) 64),
          Action.dfuDownload bn N c 64 (rxA + c + 64)])
      else
        ({e with dev := {e.dev with state := CONTROL_STATE.WAIT_STATUS_IN, ctrl_data := {e.dev.ctrl_data with addr := rxA + N, len := 0}}, ep0_rx_offset := N},
         [Action.prepareSetup, Action.prepareIn 0 0,
          Action.dfuDownload bn N c (N - c) (rxA + N),
          Action.prepareSetup, Action.prepareIn 0 0]) := by
  subst hn
  have hmod : min (N - c) 64 % 128 = min (N - c) 64 := Nat.mod_eq_of_lt (by omega)
  have h1 : step env e (Ev.out0 (min (N - c) 64)) = handle_out0 env (min (N - c) 64) e := by
    simp only [step]
    rw [if_pos (by rw [hst]; simp)]
  rw [h1, handle_out0, if_pos hst]
  simp only [handle_datastage_out, hdi, hl, ha, hmod, hrt, hbn, hwi, hwl, hoff,
    show sub32 (N - c) (min (N - c) 64) = N - c - min (N - c) 64 from
      sub32_of_le (by omega) (by omega),
    show sub32 N c = N - c from sub32_of_le (by omega) (by omega),
    EP0_SIZE, hdl, usb_lld_ctrl_ack,
    show (c + min (N - c) 64) % M32 = c + min (N - c) 64 from
      Nat.mod_eq_of_lt (by omega)]
  by_cases h64 : 64 < N - c
  · rw [if_pos h64]
    split_ifs <;> simp_all <;> omega
  · rw [if_neg h64]
    split_ifs <;> simp_all <;> omega

lemma dnload_run (env : Env) (hdi : pktsizeOf env.hw.diepBits = 64)
    (hdl : ∀ b l o s a, env.dfu_download b l o s a = true)
    (bn N : Nat) (hN : N < M32) :
    ∀ k c : Nat, N - c = k → c < N → ∀ e : Engine,
      e.dev.state = CONTROL_STATE.OUT_DATA →
      e.dev.ctrl_data.addr = rxA + c →
      e.dev.ctrl_data.len = N - c →
      e.last_setup.wRequestAndType = 0x0121 →
      e.last_setup.wValue = bn →
      e.last_setup.wIndex = 0 →
      e.last_setup.wLength = N →
      e.ep0_rx_offset = c →
      runOuts env (outChunks (N - c)) e =
        ({e with dev := {e.dev with state := CONTROL_STATE.WAIT_STATUS_IN, ctrl_data := {e.dev.ctrl_data with addr := rxA + N, len := 0}}, ep0_rx_offset := N},
         dnActs bn N c) := by
  intro k
  induction k using Nat.strong_induction_on with
  | _ k ih =>
    intro c hk hcN e hst ha hl hrt hbn hwi hwl hoff
    by_cases h64 : 64 < N - c
    · rw [outChunks_pos h64]
      rw [runOuts]
      rw [dn_step env hdi hdl bn N c hcN hN e hst ha hl hrt hbn hwi hwl hoff 64 (by omega)]
      rw [if_pos h64]
      dsimp only
      rw [show N - c - 64 = N - (c + 64) by omega]
      rw [ih (N - (c + 64)) (by omega) (c + 64) rfl (by omega)
        ({e with dev := {e.dev with state := CONTROL_STATE.OUT_DATA, ctrl_data := {e.dev.ctrl_data with addr := rxA + c + 64, len := N - (c + 64)}}, ep0_rx_offset := c + 64})
        rfl (by dsimp only; omega) rfl hrt hbn hwi hwl rfl]
      rw [dnActs_pos h64]
      simp [show N - c - 64 = N - (c + 64) by omega]
    · rw [outChunks_neg h64]
      rw [runOuts]
      rw [dn_step env hdi hdl bn N c hcN hN e hst ha hl hrt hbn hwi hwl hoff
        (N - c) (by omega)]
      rw [if_neg h64]
      dsimp only
      rw [runOuts]
      rw [dnActs_neg h64]
      simp [show min (N - c) 64 = N - c by omega]

lemma dfuCalls_dnActs : ∀ k bn N c : Nat, N - c = k →
    dfuCalls (dnActs bn N c) = dnCalls bn N c := by
  intro k
  induction k using Nat.strong_induction_on with
  | _ k ih =>
    intro bn N c hk
    by_cases h64 : 64 < N - c
    · rw [dnActs_pos h64, dnCalls, dif_pos h64]
      have hih := ih (N - (c + 64)) (by omega) bn N (c + 64) rfl
      simp only [dfuCalls] at hih ⊢
      simp [hih]
    · rw [dnActs_neg h64, dnCalls, dif_neg h64]
      simp [dfuCalls]

lemma dnCalls_length : ∀ k bn N c : Nat, N - c = k →
    (dnCalls bn N c).length = (outChunks (N - c)).length := by
  intro k
  induction k using Nat.strong_induction_on with
  | _ k ih =>
    intro bn N c hk
    by_cases h64 : 64 < N - c
    · rw [dnCalls, dif_pos h64, outChunks_pos h64]
      simp only [List.length_cons]
      rw [ih (N - (c + 64)) (by omega) bn N (c + 64) rfl]
      rw [show N - c - 64 = N - (c + 64) by omega]
    · rw [dnCalls, dif_neg h64, outChunks_neg h64]
      rfl

lemma dnCalls_sum : ∀ k bn N c : Nat, N - c = k →
    ((dnCalls bn N c).map (fun x => x.2.2.2)).sum = N - c := by
  intro k
  induction k using Nat.strong_induction_on with
  | _ k ih =>
    intro bn N c hk
    by_cases h64 : 64 < N - c
    · rw [dnCalls, dif_pos h64]
      simp only [List.map_cons, List.sum_cons]
      rw [ih (N - (c + 64)) (by omega) bn N (c + 64) rfl]
      omega
    · rw [dnCalls, dif_neg h64]
      simp

lemma outChunks_length : ∀ k n : Nat, n = k → 0 < n →
    (outChunks n).length = (n + 63) / 64 := by
  intro k
  induction k using Nat.strong_induction_on with
  | _ k ih =>
    intro n hk h0
    by_cases h64 : 64 < n
    · rw [outChunks_pos h64]
      simp only [List.length_cons]
      rw [ih (n - 64) (by omega) (n - 64) rfl (by omega)]
      omega
    · rw [outChunks_neg h64]
      simp
      omega

lemma inLens_dnActs_count : ∀ k bn N c : Nat, N - c = k →
    (inLens (dnActs bn N c)).count 0 = 2 := by
  intro k
  induction k using Nat.strong_induction_on with
  | _ k ih =>
    intro bn N c hk
    by_cases h64 : 64 < N - c
    · rw [dnActs_pos h64]
      have hih := ih (N - (c + 64)) (by omega) bn N (c + 64) rfl
      simp only [inLens, List.filterMap_cons] at hih ⊢
      simpa using hih
    · rw [dnActs_neg h64]
      simp [inLens]

lemma setup_dnload (env : Env) (hdi : pktsizeOf env.hw.diepBits = 64)
    (bn N : Nat) (hN0 : N ≠ 0) (e : Engine) :
    step env e (Ev.setup ⟨0x0121, bn, 0, N⟩) =
      ({e with dev := {e.dev with dev_req := ⟨0x0121, bn, 0, N⟩, state := CONTROL_STATE.OUT_DATA, ctrl_data := {e.dev.ctrl_data with addr := rxA, len := N}}, last_setup := ⟨0x0121, bn, 0, N⟩},
       [Action.prepareOut rxA (min N 64)]) := by
  simp only [step, usb_setup, usb_lld_ctrl_recv, hdi]
  norm_num
  rw [if_neg (by push_neg; constructor <;> omega)]
  simp [hN0]

lemma resync_err (e : Engine) :
    errorResync (usb_lld_ctrl_error e).1 (usb_lld_ctrl_error e).2 := by
  simp [usb_lld_ctrl_error, errorResync]

lemma errorResync_cons {e2 : Engine} {as : List Action} (h : errorResync e2 as)
    (x : Action) (hx1 : x ≠ Action.stallOut 0) (hx2 : x ≠ Action.stallIn 0)
    (hne : as ≠ []) : errorResync e2 (x :: as) := by
  obtain ⟨h1, h2, h3⟩ := h
  refine ⟨h1, ?_, ?_⟩
  · intro hm
    rcases List.mem_cons.mp hm with hx | hm2
    · exact absurd hx.symm hx1
    · obtain ⟨ha, hb, hc⟩ := h2 hm2
      refine ⟨ha, List.mem_cons_of_mem x hb, ?_⟩
      cases as with
      | nil => exact absurd rfl hne
      | cons b t => rw [List.getLast?_cons_cons]; exact hc
  · intro hm
    rcases List.mem_cons.mp hm with hx | hm2
    · exact absurd hx.symm hx2
    · exact List.mem_cons_of_mem x (h3 hm2)

lemma resync_err_cons (e : Engine) (x : Action) (hx1 : x ≠ Action.stallOut 0)
    (hx2 : x ≠ Action.stallIn 0) :
    errorResync (usb_lld_ctrl_error e).1 (x :: (usb_lld_ctrl_error e).2) := by
  exact errorResync_cons (resync_err e) x hx1 hx2 (by simp [usb_lld_ctrl_error])

lemma resync_fs (hw : Hw) (e : Engine) (a n : Nat) (pre : List Action)
    (h1 : Action.stallOut 0 ∉ pre) (h2 : Action.stallIn 0 ∉ pre) :
    errorResync (finishSend hw e a n pre).1 (finishSend hw e a n pre).2 := by
  simp only [finishSend, usb_lld_ctrl_send, usb_lld_ctrl_ack]
  split_ifs <;> simp_all [errorResync]

lemma resync_fs_cons (hw : Hw) (e : Engine) (a n : Nat) (pre : List Action)
    (h1 : Action.stallOut 0 ∉ pre) (h2 : Action.stallIn 0 ∉ pre) (x : Action)
    (hx1 : x ≠ Action.stallOut 0) (hx2 : x ≠ Action.stallIn 0) :
    errorResync (finishSend hw e a n pre).1 (x :: (finishSend hw e a n pre).2) := by
  refine errorResync_cons (resync_fs hw e a n pre h1 h2) x hx1 hx2 ?_
  simp only [finishSend, usb_lld_ctrl_send, usb_lld_ctrl_ack]
  split_ifs <;> simp

lemma resync_recv (hw : Hw) (p len : Nat) (e : Engine) :
    errorResync
      ({e with dev := (usb_lld_ctrl_recv hw p len e.dev).1} : Engine)
      (usb_lld_ctrl_recv hw p len e.dev).2 := by
  simp [usb_lld_ctrl_recv, errorResync]

lemma resync_recv_cons (hw : Hw) (p len : Nat) (e : Engine) (x : Action)
    (hx1 : x ≠ Action.stallOut 0) (hx2 : x ≠ Action.stallIn 0) :
    errorResync
      ({e with dev := (usb_lld_ctrl_recv hw p len e.dev).1} : Engine)
      (x :: (usb_lld_ctrl_recv hw p len e.dev).2) := by
  refine errorResync_cons (resync_recv hw p len e) x hx1 hx2 (by simp [usb_lld_ctrl_recv])

lemma usb_setup_resync (env : Env) (e : Engine) :
    errorResync (usb_setup env e).1 (usb_setup env e).2 := by
  rw [usb_setup]
  dsimp only
  by_cases h1 : e.dev.dev_req.wRequestAndType = 0x0500
  · rw [if_pos h1]
    exact resync_fs _ _ _ _ _ (by simp) (by simp)
  rw [if_neg h1]
  by_cases h2 : e.dev.dev_req.wRequestAndType = 0x0900
  · rw [if_pos h2]
    exact resync_fs _ _ _ _ _ (by simp) (by simp)
  rw [if_neg h2]
  by_cases h3 : e.dev.dev_req.wRequestAndType = 0x0880
  · rw [if_pos h3]
    exact resync_fs _ _ _ _ _ (by simp) (by simp)
  rw [if_neg h3]
  by_cases h4 : e.dev.dev_req.wRequestAndType = 0x0080
  · rw [if_pos h4]
    exact resync_fs _ _ _ _ _ (by simp) (by simp)
  rw [if_neg h4]
  by_cases h5 : e.dev.dev_req.wRequestAndType = 0x0082
  · rw [if_pos h5]
    split_ifs
    · exact resync_err _
    · exact resync_fs _ _ _ _ _ (by simp) (by simp)
    · exact resync_fs _ _ _ _ _ (by simp) (by simp)
  rw [if_neg h5]
  by_cases h6 : e.dev.dev_req.wRequestAndType = 0x0102
  · rw [if_pos h6]
    split_ifs
    · exact resync_err _
    · exact resync_fs _ _ _ _ _ (by simp) (by simp)
  rw [if_neg h6]
  by_cases h7 : e.dev.dev_req.wRequestAndType = 0x0302
  · rw [if_pos h7]
    split_ifs
    · exact resync_err _
    · exact resync_fs _ _ _ _ _ (by simp) (by simp)
  rw [if_neg h7]
  by_cases h8 : e.dev.dev_req.wRequestAndType = 0x0680 ∨
      e.dev.dev_req.wRequestAndType = 0x0681
  · rw [if_pos h8]
    cases hD : findDesc env.descs e.dev.dev_req.wValue with
    | none => exact resync_err _
    | some d => exact resync_fs _ _ _ _ _ (by simp) (by simp)
  rw [if_neg h8]
  by_cases h9 : e.dev.dev_req.wRequestAndType = env.msftVendorCode * 256 + 0xC0 ∨
      e.dev.dev_req.wRequestAndType = env.msftVendorCode * 256 + 0xC1
  · rw [if_pos h9]
    split_ifs
    · exact resync_fs _ _ _ _ _ (by simp) (by simp)
    · exact resync_err _
  rw [if_neg h9]
  by_cases h10 : e.dev.dev_req.wRequestAndType = 0x0121
  · rw [if_pos h10]
    split_ifs
    · exact resync_err _
    · exact resync_recv_cons _ _ _ _ _ (by simp) (by simp)
    · exact resync_err_cons _ _ (by simp) (by simp)
    · exact resync_recv _ _ _ _
  rw [if_neg h10]
  by_cases h11 : e.dev.dev_req.wRequestAndType = 0x03a1
  · rw [if_pos h11]
    split_ifs
    · exact resync_err _
    · exact resync_fs_cons _ _ _ _ _ (by simp) (by simp) _ (by simp) (by simp)
    · exact resync_err_cons _ _ (by simp) (by simp)
  rw [if_neg h11]
  by_cases h12 : e.dev.dev_req.wRequestAndType = 0x0421
  · rw [if_pos h12]
    split_ifs
    · exact resync_err _
    · exact resync_fs_cons _ _ _ _ _ (by simp) (by simp) _ (by simp) (by simp)
    · exact resync_err_cons _ _ (by simp) (by simp)
  rw [if_neg h12]
  by_cases h13 : e.dev.dev_req.wRequestAndType = 0x05a1
  · rw [if_pos h13]
    split_ifs
    · exact resync_err _
    · exact resync_fs_cons _ _ _ _ _ (by simp) (by simp) _ (by simp) (by simp)
  rw [if_neg h13]
  by_cases h14 : e.dev.dev_req.wRequestAndType = 0x0621
  · rw [if_pos h14]
    split_ifs
    · exact resync_err _
    · exact resync_fs_cons _ _ _ _ _ (by simp) (by simp) _ (by simp) (by simp)
    · exact resync_err_cons _ _ (by simp) (by simp)
  rw [if_neg h14]
  exact resync_err _

lemma fs_offset (hw : Hw) (e : Engine) (a n : Nat) (pre : List Action) :
    (finishSend hw e a n pre).1.ep0_rx_offset = e.ep0_rx_offset := by
  simp only [finishSend, usb_lld_ctrl_send, usb_lld_ctrl_ack]
  split_ifs <;> rfl

lemma usb_setup_offset (env : Env) (e : Engine) :
    (usb_setup env e).1.ep0_rx_offset = e.ep0_rx_offset := by
  rw [usb_setup]
  dsimp only
  by_cases h1 : e.dev.dev_req.wRequestAndType = 0x0500
  · rw [if_pos h1]; exact fs_offset _ _ _ _ _
  rw [if_neg h1]
  by_cases h2 : e.dev.dev_req.wRequestAndType = 0x0900
  · rw [if_pos h2]; exact fs_offset _ _ _ _ _
  rw [if_neg h2]
  by_cases h3 : e.dev.dev_req.wRequestAndType = 0x0880
  · rw [if_pos h3]; exact fs_offset _ _ _ _ _
  rw [if_neg h3]
  by_cases h4 : e.dev.dev_req.wRequestAndType = 0x0080
  · rw [if_pos h4]; exact fs_offset _ _ _ _ _
  rw [if_neg h4]
  by_cases h5 : e.dev.dev_req.wRequestAndType = 0x0082
  · rw [if_pos h5]
    split_ifs <;> first | rfl | exact fs_offset _ _ _ _ _
  rw [if_neg h5]
  by_cases h6 : e.dev.dev_req.wRequestAndType = 0x0102
  · rw [if_pos h6]
    split_ifs <;> first | rfl | exact fs_offset _ _ _ _ _
  rw [if_neg h6]
  by_cases h7 : e.dev.dev_req.wRequestAndType = 0x0302
  · rw [if_pos h7]
    split_ifs <;> first | rfl | exact fs_offset _ _ _ _ _
  rw [if_neg h7]
  by_cases h8 : e.dev.dev_req.wRequestAndType = 0x0680 ∨
      e.dev.dev_req.wRequestAndType = 0x0681
  · rw [if_pos h8]
    cases hD : findDesc env.descs e.dev.dev_req.wValue with
    | none => rfl
    | some d => exact fs_offset _ _ _ _ _
  rw [if_neg h8]
  by_cases h9 : e.dev.dev_req.wRequestAndType = env.msftVendorCode * 256 + 0xC0 ∨
      e.dev.dev_req.wRequestAndType = env.msftVendorCode * 256 + 0xC1
  · rw [if_pos h9]
    split_ifs <;> first | rfl | exact fs_offset _ _ _ _ _
  rw [if_neg h9]
  by_cases h10 : e.dev.dev_req.wRequestAndType = 0x0121
  · rw [if_pos h10]
    split_ifs <;> rfl
  rw [if_neg h10]
  by_cases h11 : e.dev.dev_req.wRequestAndType = 0x03a1
  · rw [if_pos h11]
    split_ifs <;> first | rfl | exact fs_offset _ _ _ _ _
  rw [if_neg h11]
  by_cases h12 : e.dev.dev_req.wRequestAndType = 0x0421
  · rw [if_pos h12]
    split_ifs <;> first | rfl | exact fs_offset _ _ _ _ _
  rw [if_neg h12]
  by_cases h13 : e.dev.dev_req.wRequestAndType = 0x05a1
  · rw [if_pos h13]
    split_ifs <;> first | rfl | exact fs_offset _ _ _ _ _
  rw [if_neg h13]
  by_cases h14 : e.dev.dev_req.wRequestAndType = 0x0621
  · rw [if_pos h14]
    split_ifs <;> first | rfl | exact fs_offset _ _ _ _ _
  rw [if_neg h14]
  rfl

lemma handle_in0_offset (env : Env) (e : Engine) :
    (handle_in0 env e).1.ep0_rx_offset = e.ep0_rx_offset := by
  simp only [handle_in0, handle_datastage_in]
  split_ifs <;> rfl

lemma pktsizeOf_le (b : Nat) : pktsizeOf b ≤ 64 := by
  rw [pktsizeOf, Nat.shiftRight_eq_div_pow]
  exact Nat.div_le_self 64 _

/-- C1 counterexample: a new SETUP that is not a DFU_DNLOAD continuation
(here SET_ADDRESS, arriving in the non-WAIT_SETUP state IN_DATA) leaves
ep0_rx_offset at its stale value 5 instead of resetting it to 0, and the
status-stage completion of a no-data transfer (WAIT_STATUS_IN IN completion)
also leaves it at 5. -/
theorem c1_new_setup_leaves_cursor :
    (step env0 {eng0 with dev := {eng0.dev with state := CONTROL_STATE.IN_DATA}, ep0_rx_offset := 5}
      (Ev.setup ⟨0x0500, 9, 0, 0⟩)).1.ep0_rx_offset = 5 ∧
    ¬ (step env0 {eng0 with dev := {eng0.dev with state := CONTROL_STATE.IN_DATA}, ep0_rx_offset := 5}
      (Ev.setup ⟨0x0500, 9, 0, 0⟩)).1.ep0_rx_offset = 0 ∧
    (step env0 {eng0 with dev := {eng0.dev with state := CONTROL_STATE.WAIT_STATUS_IN}, ep0_rx_offset := 5}
      Ev.in0).1.ep0_rx_offset = 5 := by
  decide

/-- C1 (amended): ep0_rx_offset is reset to 0 exactly when the status stage
of a control READ completes (an OUT completion in state WAIT_STATUS_OUT); a
new SETUP always leaves the cursor unchanged (usb_setup never touches it),
and an IN completion (including the one that finishes a no-data transfer)
also leaves it unchanged. -/
theorem c1_cursor_reset_characterization (env : Env) (e : Engine) :
    (∀ r : DeviceReq, (step env e (Ev.setup r)).1.ep0_rx_offset = e.ep0_rx_offset) ∧
    (step env e Ev.in0).1.ep0_rx_offset = e.ep0_rx_offset ∧
    (∀ n : Nat, e.dev.state = CONTROL_STATE.WAIT_STATUS_OUT →
      (step env e (Ev.out0 n)).1.ep0_rx_offset = 0) := by
  refine ⟨?_, ?_, ?_⟩
  · intro r
    simp only [step]
    exact usb_setup_offset env _
  · simp only [step]
    exact handle_in0_offset env e
  · intro n hst
    simp only [step]
    rw [if_pos (by rw [hst]; simp)]
    rw [handle_out0]
    rw [if_neg (by rw [hst]; simp)]
    rw [if_pos hst]

/-- C1 witness: at a concrete engine resting in WAIT_STATUS_OUT with cursor
7, a SET_ADDRESS SETUP leaves the cursor at 7 and an OUT completion resets
it to 0. -/
theorem c1_cursor_reset_characterization_witness :
    (step env0 {eng0 with dev := {eng0.dev with state := CONTROL_STATE.WAIT_STATUS_OUT}, ep0_rx_offset := 7}
      (Ev.setup ⟨0x0500, 9, 0, 0⟩)).1.ep0_rx_offset = 7 ∧
    (step env0 {eng0 with dev := {eng0.dev with state := CONTROL_STATE.WAIT_STATUS_OUT}, ep0_rx_offset := 7}
      (Ev.out0 0)).1.ep0_rx_offset = 0 := by
  obtain ⟨h1, h2, h3⟩ := c1_cursor_reset_characterization env0
    {eng0 with dev := {eng0.dev with state := CONTROL_STATE.WAIT_STATUS_OUT}, ep0_rx_offset := 7}
  exact ⟨(h1 ⟨0x0500, 9, 0, 0⟩).trans rfl, h3 0 rfl⟩

/-- C2: the overflow guard of handle_out0 is dead.  Starting from the reset
state, a 64-byte DFU_DNLOAD completes (leaving ep0_rx_offset = 64, compare
C1), and a following DFU_DNLOAD with wLength = 10 receives its single OUT
packet while the cursor already exceeds wLength.  The claim requires a
stall and no backend call; the code, whose guard tests
wIndex != 0 AND offset > wLength, instead calls dfu_download with
packetOffset 64 > blockLength 10 and a chunk size clamped from the wrapped
32-bit difference, never stalls, and advances the cursor to 128. -/
theorem c2_offset_overflow_reaches_backend :
    Action.dfuDownload 1 10 64 64 (rxA + 10) ∈
      (runEvs env0 [Ev.setup ⟨0x0121, 0, 0, 64⟩, Ev.out0 64, Ev.in0,
        Ev.setup ⟨0x0121, 1, 0, 10⟩, Ev.out0 10] eng0).2 ∧
    (runEvs env0 [Ev.setup ⟨0x0121, 0, 0, 64⟩, Ev.out0 64, Ev.in0,
        Ev.setup ⟨0x0121, 1, 0, 10⟩, Ev.out0 10] eng0).1.ep0_rx_offset = 128 ∧
    Action.stallOut 0 ∉
      (runEvs env0 [Ev.setup ⟨0x0121, 0, 0, 64⟩, Ev.out0 64, Ev.in0,
        Ev.setup ⟨0x0121, 1, 0, 10⟩, Ev.out0 10] eng0).2 ∧
    Action.stallIn 0 ∉
      (runEvs env0 [Ev.setup ⟨0x0121, 0, 0, 64⟩, Ev.out0 64, Ev.in0,
        Ev.setup ⟨0x0121, 1, 0, 10⟩, Ev.out0 10] eng0).2 := by
  decide

/-- C3 counterexample: for a control IN transfer whose clamped total is
exactly 64 bytes (one full packet), the data phase offers the packet
lengths [64, 0, 0]: two zero-length packets, not exactly one, because
usb_lld_ctrl_send enters LAST_IN_DATA only for strictly short totals, so
the chunker emits an empty chunk before the flag-driven ZLP. -/
theorem c3_total64_two_zero_length_packets :
    inLens (sendPhase env0 10 0x5000 64
      {eng0 with dev := {eng0.dev with dev_req := ⟨0x0680, 1, 0, 64⟩}}).2 = [64, 0, 0] ∧
    ¬ (inLens (sendPhase env0 10 0x5000 64
      {eng0 with dev := {eng0.dev with dev_req := ⟨0x0680, 1, 0, 64⟩}}).2).count 0 = 1 := by
  decide

/-- C3 (amended): the IN packet lengths of a control send transfer are
phaseLens of the clamped total t = min(buflen, wLength).  For non-zero
multiples of 64 other than 64 itself, exactly one zero-length packet
terminates the phase; for t = 64 two zero-length packets are sent; for t
not a multiple of 64 no zero-length packet occurs.  The zero-length-packet
flag is computed once at transfer start in usb_lld_ctrl_send and is false
again (consumed) when the phase completes. -/
theorem c3_zlp_characterization (env : Env) (hdi : pktsizeOf env.hw.diepBits = 64)
    (hdo : pktsizeOf env.hw.doepBits = 64) (buf buflen fuel : Nat) (e : Engine)
    (hfuel : min buflen e.dev.dev_req.wLength / 64 + 4 ≤ fuel) :
    inLens (sendPhase env fuel buf buflen e).2 =
      phaseLens (min buflen e.dev.dev_req.wLength) ∧
    (min buflen e.dev.dev_req.wLength % 64 = 0 →
      min buflen e.dev.dev_req.wLength ≠ 0 →
      min buflen e.dev.dev_req.wLength ≠ 64 →
      phaseLens (min buflen e.dev.dev_req.wLength) =
        List.replicate (min buflen e.dev.dev_req.wLength / 64) 64 ++ [0]) ∧
    phaseLens 64 = [64, 0, 0] ∧
    (min buflen e.dev.dev_req.wLength % 64 ≠ 0 →
      0 ∉ phaseLens (min buflen e.dev.dev_req.wLength)) ∧
    (usb_lld_ctrl_send env.hw buf buflen e.dev).1.ctrl_data.require_zlp =
      ((min buflen e.dev.dev_req.wLength != 0) &&
       (min buflen e.dev.dev_req.wLength % 64 == 0)) ∧
    (sendPhase env fuel buf buflen e).1.dev.ctrl_data.require_zlp = false := by
  obtain ⟨h1, h2, h3, h4⟩ := sendPhase_lens env hdi hdo buf buflen fuel e hfuel
  refine ⟨h1, ?_, phaseLens_64, ?_, h4, h3⟩
  · intro hm h0 h64
    exact phaseLens_mult _ hm (by omega)
  · intro hm
    exact zero_not_mem_phaseLens _ hm

/-- C3 witness: a 128-byte transfer (total a non-zero multiple of 64,
different from 64) sends packets [64, 64, 0] with exactly one terminating
zero-length packet. -/
theorem c3_zlp_characterization_witness :
    inLens (sendPhase env0 10 0x5000 128
      {eng0 with dev := {eng0.dev with dev_req := ⟨0x0680, 1, 0, 128⟩}}).2 = [64, 64, 0] ∧
    (inLens (sendPhase env0 10 0x5000 128
      {eng0 with dev := {eng0.dev with dev_req := ⟨0x0680, 1, 0, 128⟩}}).2).count 0 = 1 := by
  have h := c3_zlp_characterization env0 rfl rfl 0x5000 128 10
    {eng0 with dev := {eng0.dev with dev_req := ⟨0x0680, 1, 0, 128⟩}} (by decide)
  have h1 := h.1
  rw [show min (128 : Nat)
      ({eng0 with dev := {eng0.dev with dev_req := ⟨0x0680, 1, 0, 128⟩}} : Engine).dev.dev_req.wLength = 128
    by decide] at h1
  have h2 : phaseLens 128 = [64, 64, 0] := by
    rw [phaseLens]
    norm_num
    rw [lensFrom]
    norm_num
  rw [h2] at h1
  exact ⟨h1, by rw [h1]; decide⟩

/-- C4: for every control IN transfer started by usb_lld_ctrl_send, the
data-phase packet lengths sum to min(buflen, wLength), and each packet
length equals min(remaining bytes, 64). -/
theorem c4_send_length_clamp (env : Env) (hdi : pktsizeOf env.hw.diepBits = 64)
    (hdo : pktsizeOf env.hw.doepBits = 64) (buf buflen fuel : Nat) (e : Engine)
    (hfuel : min buflen e.dev.dev_req.wLength / 64 + 4 ≤ fuel) :
    (inLens (sendPhase env fuel buf buflen e).2).sum =
      min buflen e.dev.dev_req.wLength ∧
    eachMin (min buflen e.dev.dev_req.wLength)
      (inLens (sendPhase env fuel buf buflen e).2) = true := by
  obtain ⟨h1, -, -, -⟩ := sendPhase_lens env hdi hdo buf buflen fuel e hfuel
  rw [h1]
  exact ⟨phaseLens_sum _, eachMin_phaseLens _⟩

/-- C4 witness: sending 18 bytes against an 18-byte wLength (the
GET_DESCRIPTOR device-descriptor scenario) transfers exactly 18 bytes with
every packet length min(remaining, 64). -/
theorem c4_send_length_clamp_witness :
    (inLens (sendPhase env0 10 0x5000 18
      {eng0 with dev := {eng0.dev with dev_req := ⟨0x0680, 1, 0, 18⟩}}).2).sum = 18 ∧
    eachMin 18 (inLens (sendPhase env0 10 0x5000 18
      {eng0 with dev := {eng0.dev with dev_req := ⟨0x0680, 1, 0, 18⟩}}).2) = true := by
  obtain ⟨h1, h2⟩ := c4_send_length_clamp env0 rfl rfl 0x5000 18 10
    {eng0 with dev := {eng0.dev with dev_req := ⟨0x0680, 1, 0, 18⟩}} (by decide)
  exact ⟨h1.trans (by decide), by simpa using h2⟩

/-- C5: every SETUP with non-zero wIndex for GET_STATUS(endpoint),
CLEAR_FEATURE/SET_FEATURE(endpoint) or any DFU class request stalls EP0 in
both directions, re-arms SETUP reception and resynchronizes to WAIT_SETUP,
with no other effect: the resulting engine state differs from the initial
one only in dev_req/last_setup and the stall bit, and the action trace is
exactly the stall sequence (no backend call, no address or configuration
change, no reply). -/
theorem c5_nonzero_windex_stalls_no_side_effect (env : Env) (e : Engine) (r : DeviceReq)
    (hmem : r.wRequestAndType ∈
      [0x0082, 0x0102, 0x0302, 0x0121, 0x03a1, 0x0421, 0x05a1, 0x0621])
    (hwi : 0 < r.wIndex) :
    step env e (Ev.setup r) =
      ({e with dev := {e.dev with dev_req := r, state := CONTROL_STATE.WAIT_SETUP}, last_setup := r, diep0ctl_stall := true},
       [Action.stallOut 0, Action.stallIn 0, Action.prepareSetup]) := by
  simp only [List.mem_cons, List.mem_singleton, List.not_mem_nil, or_false] at hmem
  rcases hmem with hrt | hrt | hrt | hrt | hrt | hrt | hrt | hrt <;>
    (simp only [step, usb_setup, usb_lld_ctrl_error, hrt]
     norm_num [hwi]
     try (rintro (hv | hv) <;> omega))

/-- C5 witness: GET_STATUS(endpoint) with wIndex = 1 (Scenario D) stalls
both directions and rests in WAIT_SETUP with no other effect. -/
theorem c5_nonzero_windex_stalls_no_side_effect_witness :
    step env0 eng0 (Ev.setup ⟨0x0082, 0, 1, 2⟩) =
      ({eng0 with dev := {eng0.dev with dev_req := ⟨0x0082, 0, 1, 2⟩, state := CONTROL_STATE.WAIT_SETUP}, last_setup := ⟨0x0082, 0, 1, 2⟩, diep0ctl_stall := true},
       [Action.stallOut 0, Action.stallIn 0, Action.prepareSetup]) :=
  c5_nonzero_windex_stalls_no_side_effect env0 eng0 ⟨0x0082, 0, 1, 2⟩
    (by decide) (by decide)

/-- C6: a DFU_DNLOAD with wLength = 0 and wIndex = 0 is forwarded to the
backend as a zero-byte block call, but the code then falls through to
usb_lld_ctrl_recv, arming a zero-length OUT data phase (state OUT_DATA,
prepare OUT of 0 bytes into rx_buffer) and never arming the status IN, so
the request does not complete synchronously as the claim (and the comment
in the source, which says the zero-length request is handled now) states;
when the backend rejects the zero-byte block the dispatcher does stall. -/
theorem c6_zero_length_dnload_arms_out_phase :
    step env0 eng0 (Ev.setup ⟨0x0121, 7, 0, 0⟩) =
      ({eng0 with dev := ⟨CONTROL_STATE.OUT_DATA, ⟨0x0121, 7, 0, 0⟩, ⟨rxA, 0, false⟩⟩, last_setup := ⟨0x0121, 7, 0, 0⟩},
       [Action.dfuDownload 7 0 0 0 0, Action.prepareOut rxA 0]) ∧
    step envRej eng0 (Ev.setup ⟨0x0121, 7, 0, 0⟩) =
      ({eng0 with dev := ⟨CONTROL_STATE.WAIT_SETUP, ⟨0x0121, 7, 0, 0⟩, ⟨0, 0, false⟩⟩, last_setup := ⟨0x0121, 7, 0, 0⟩, diep0ctl_stall := true},
       [Action.dfuDownload 7 0 0 0 0, Action.stallOut 0, Action.stallIn 0,
        Action.prepareSetup]) := by
  decide

/-- C7: every event handler leaves the engine outside STALLED, and whenever
a handler stalls EP0 it stalls both directions, rests in WAIT_SETUP and
issues arming of SETUP reception as its final driver call. -/
theorem c7_error_paths_resync_to_wait_setup (env : Env) (e : Engine) (ev : Ev) :
    errorResync (step env e ev).1 (step env e ev).2 := by
  cases ev with
  | setup r => exact usb_setup_resync env _
  | out0 n =>
    simp only [step]
    split_ifs with hw
    · simp only [handle_out0, handle_datastage_out, usb_lld_ctrl_error,
        usb_lld_ctrl_ack]
      split_ifs <;> simp_all [errorResync]
    · simp_all [errorResync]
  | in0 =>
    simp only [step, handle_in0, handle_datastage_in, usb_lld_ctrl_error]
    split_ifs <;> simp_all [errorResync]

/-- C7 witness: the unsupported request 0x1234 (Scenario C) stalls both
directions and returns to WAIT_SETUP. -/
theorem c7_error_paths_resync_to_wait_setup_witness :
    Action.stallOut 0 ∈ (step env0 eng0 (Ev.setup ⟨0x1234, 0, 0, 0⟩)).2 ∧
    (step env0 eng0 (Ev.setup ⟨0x1234, 0, 0, 0⟩)).1.dev.state =
      CONTROL_STATE.WAIT_SETUP ∧
    Action.stallIn 0 ∈ (step env0 eng0 (Ev.setup ⟨0x1234, 0, 0, 0⟩)).2 := by
  have h := c7_error_paths_resync_to_wait_setup env0 eng0 (Ev.setup ⟨0x1234, 0, 0, 0⟩)
  have hm : Action.stallOut 0 ∈ (step env0 eng0 (Ev.setup ⟨0x1234, 0, 0, 0⟩)).2 := by decide
  exact ⟨hm, (h.2.1 hm).1, (h.2.1 hm).2.1⟩

/-- C8 counterexample: Scenario B (DFU_DNLOAD wValue = 0, wLength = 200,
OUT packets 64, 64, 64, 8) makes the four backend chunk calls at offsets
0, 64, 128, 192 with lengths 64, 64, 64, 8, but the zero-length IN
acknowledgment is armed twice during the last packet (once by
handle_datastage_out before the chunk call and once by usb_lld_ctrl_ack
after it), not exactly once. -/
theorem c8_scenario_b_two_ack_arms :
    dfuCalls (runEvs env0 [Ev.setup ⟨0x0121, 0, 0, 200⟩, Ev.out0 64, Ev.out0 64,
        Ev.out0 64, Ev.out0 8] eng0).2 =
      [(0, 200, 0, 64), (0, 200, 64, 64), (0, 200, 128, 64), (0, 200, 192, 8)] ∧
    (inLens (runEvs env0 [Ev.setup ⟨0x0121, 0, 0, 200⟩, Ev.out0 64, Ev.out0 64,
        Ev.out0 64, Ev.out0 8] eng0).2).count 0 = 2 ∧
    ¬ (inLens (runEvs env0 [Ev.setup ⟨0x0121, 0, 0, 200⟩, Ev.out0 64, Ev.out0 64,
        Ev.out0 64, Ev.out0 8] eng0).2).count 0 = 1 := by
  decide

/-- C8 (amended): a fresh DFU_DNLOAD of wLength N delivered as ceil(N/64)
OUT packets of min(remaining, 64) bytes, with an accepting backend, makes
exactly one backend chunk call per packet (count ceil(N/64)) with chunk
lengths summing to N, and engages the zero-length IN acknowledgment during
the handling of the last packet, where the identical zero-length IN is
armed by two calls (the data-stage handler and the ack path), leaving one
armed ACK; the transfer ends in WAIT_STATUS_IN with the cursor at N. -/
theorem c8_dnload_roundtrip_characterization (env : Env) (hdi : pktsizeOf env.hw.diepBits = 64)
    (hdl : ∀ b l o s a, env.dfu_download b l o s a = true)
    (bn N : Nat) (h0 : 0 < N) (hN : N < M32) (e : Engine)
    (hoff : e.ep0_rx_offset = 0) :
    (step env e (Ev.setup ⟨0x0121, bn, 0, N⟩)).2 =
      [Action.prepareOut rxA (min N 64)] ∧
    (runOuts env (outChunks N) (step env e (Ev.setup ⟨0x0121, bn, 0, N⟩)).1).2 =
      dnActs bn N 0 ∧
    dfuCalls ((step env e (Ev.setup ⟨0x0121, bn, 0, N⟩)).2 ++
        (runOuts env (outChunks N) (step env e (Ev.setup ⟨0x0121, bn, 0, N⟩)).1).2) =
      dnCalls bn N 0 ∧
    (dfuCalls ((step env e (Ev.setup ⟨0x0121, bn, 0, N⟩)).2 ++
        (runOuts env (outChunks N) (step env e (Ev.setup ⟨0x0121, bn, 0, N⟩)).1).2)).length =
      (N + 63) / 64 ∧
    ((dfuCalls ((step env e (Ev.setup ⟨0x0121, bn, 0, N⟩)).2 ++
        (runOuts env (outChunks N) (step env e (Ev.setup ⟨0x0121, bn, 0, N⟩)).1).2)).map
      (fun x => x.2.2.2)).sum = N ∧
    (inLens ((step env e (Ev.setup ⟨0x0121, bn, 0, N⟩)).2 ++
        (runOuts env (outChunks N) (step env e (Ev.setup ⟨0x0121, bn, 0, N⟩)).1).2)).count 0 = 2 ∧
    (runOuts env (outChunks N) (step env e (Ev.setup ⟨0x0121, bn, 0, N⟩)).1).1.dev.state =
      CONTROL_STATE.WAIT_STATUS_IN ∧
    (runOuts env (outChunks N) (step env e (Ev.setup ⟨0x0121, bn, 0, N⟩)).1).1.ep0_rx_offset = N := by
  rw [setup_dnload env hdi bn N (by omega) e]
  dsimp only
  have hrun := dnload_run env hdi hdl bn N hN N 0 (by omega) h0
    ({e with dev := {e.dev with dev_req := ⟨0x0121, bn, 0, N⟩, state := CONTROL_STATE.OUT_DATA, ctrl_data := {e.dev.ctrl_data with addr := rxA, len := N}}, last_setup := ⟨0x0121, bn, 0, N⟩})
    rfl (by dsimp only; omega) (by dsimp only; omega) rfl rfl rfl rfl hoff
  rw [Nat.sub_zero] at hrun
  rw [hrun]
  dsimp only
  refine ⟨rfl, rfl, ?_, ?_, ?_, ?_, rfl, rfl⟩
  · simp only [dfuCalls, List.filterMap_append, List.filterMap_cons]
    have := dfuCalls_dnActs N bn N 0 rfl
    simp only [dfuCalls] at this
    simp [this]
  · simp only [dfuCalls, List.filterMap_append, List.filterMap_cons]
    have h1 := dfuCalls_dnActs N bn N 0 rfl
    simp only [dfuCalls] at h1
    simp only [h1]
    have h2 := dnCalls_length N bn N 0 rfl
    rw [Nat.sub_zero] at h2
    have h3 := outChunks_length N N rfl h0
    simp [h2, h3]
  · simp only [dfuCalls, List.filterMap_append, List.filterMap_cons]
    have h1 := dfuCalls_dnActs N bn N 0 rfl
    simp only [dfuCalls] at h1
    simp only [h1]
    have h2 := dnCalls_sum N bn N 0 rfl
    rw [Nat.sub_zero] at h2
    simp [h2]
  · simp only [inLens, List.filterMap_append, List.filterMap_cons]
    have h1 := inLens_dnActs_count N bn N 0 rfl
    simp only [inLens] at h1
    simp [h1]

/-- C8 witness: at N = 200 from the reset state, the run makes 4 backend
calls whose chunk lengths sum to 200 and arms the zero-length IN twice. -/
theorem c8_dnload_roundtrip_characterization_witness :
    (dfuCalls ((step env0 eng0 (Ev.setup ⟨0x0121, 0, 0, 200⟩)).2 ++
        (runOuts env0 (outChunks 200)
          (step env0 eng0 (Ev.setup ⟨0x0121, 0, 0, 200⟩)).1).2)).length = 4 ∧
    ((dfuCalls ((step env0 eng0 (Ev.setup ⟨0x0121, 0, 0, 200⟩)).2 ++
        (runOuts env0 (outChunks 200)
          (step env0 eng0 (Ev.setup ⟨0x0121, 0, 0, 200⟩)).1).2)).map
      (fun x => x.2.2.2)).sum = 200 ∧
    (inLens ((step env0 eng0 (Ev.setup ⟨0x0121, 0, 0, 200⟩)).2 ++
        (runOuts env0 (outChunks 200)
          (step env0 eng0 (Ev.setup ⟨0x0121, 0, 0, 200⟩)).1).2)).count 0 = 2 := by
  have h := c8_dnload_roundtrip_characterization env0 rfl
    (fun _ _ _ _ _ => rfl) 0 200 (by decide) (by decide) eng0 rfl
  exact ⟨h.2.2.2.1.trans (by norm_num), h.2.2.2.2.1, h.2.2.2.2.2.1⟩

/-- C9 counterexample: with an unaligned 100-byte caller buffer clamped to
10 bytes by wLength, the staging path copies all 100 caller bytes into the
64-byte ctrl_send_buf (overrun); and a DFU_DNLOAD of wLength 200 arms its
second OUT chunk at rx_buffer + 64, past the end of the 64-byte
rx_buffer. -/
theorem c9_buffer_overrun_examples :
    (usb_lld_ctrl_send env0.hw 0x4001 100
      ⟨CONTROL_STATE.WAIT_SETUP, ⟨0x0680, 1, 0, 10⟩, ⟨0, 0, false⟩⟩).2 =
      [Action.memcpyCtrlSendBuf 0x4001 100, Action.prepareIn ctrlSendBufA 10] ∧
    ¬ (100 ≤ 64) ∧
    Action.prepareOut (rxA + 64) 64 ∈
      (runEvs env0 [Ev.setup ⟨0x0121, 0, 0, 200⟩, Ev.out0 64] eng0).2 ∧
    ¬ (rxA + 64 + 64 ≤ rxA + 64) := by
  decide

/-- C9 (amended): the staging memcpy into the 64-byte ctrl_send_buf writes
exactly buflen bytes and so stays within capacity whenever buflen ≤ 64;
the DFU OUT reception stays within rx_buffer + 64 provided wLength ≤ 64,
both at arming time in usb_lld_ctrl_recv and across every data-stage OUT
completion whose reported packet length does not exceed the remaining
count. -/
theorem c9_buffer_bounds_under_capacity_preconditions (env : Env) :
    (∀ buf buflen : Nat, ∀ d : UsbDev, ∀ s l : Nat, buflen ≤ 64 →
       Action.memcpyCtrlSendBuf s l ∈ (usb_lld_ctrl_send env.hw buf buflen d).2 →
       l ≤ 64) ∧
    (∀ wl : Nat, ∀ d : UsbDev, wl ≤ 64 →
       (∀ a l2 : Nat,
          Action.prepareOut a l2 ∈ (usb_lld_ctrl_recv env.hw rxA wl d).2 →
          a + l2 ≤ rxA + 64) ∧
       (usb_lld_ctrl_recv env.hw rxA wl d).1.ctrl_data.addr +
         (usb_lld_ctrl_recv env.hw rxA wl d).1.ctrl_data.len ≤ rxA + 64) ∧
    (∀ d : UsbDev, ∀ rxLen B : Nat,
       d.ctrl_data.addr + d.ctrl_data.len ≤ B → d.ctrl_data.len ≤ 64 →
       rxLen % 128 ≤ d.ctrl_data.len →
       (∀ a l2 : Nat,
          Action.prepareOut a l2 ∈ (handle_datastage_out env.hw rxLen d).2 →
          a + l2 ≤ B) ∧
       (handle_datastage_out env.hw rxLen d).1.ctrl_data.addr +
         (handle_datastage_out env.hw rxLen d).1.ctrl_data.len ≤ B) := by
  refine ⟨?_, ?_, ?_⟩
  · intro buf buflen d s l hbl hmem
    simp only [usb_lld_ctrl_send] at hmem
    split_ifs at hmem <;> simp_all
  · intro wl d hwl
    constructor
    · intro a l2 hmem
      simp only [usb_lld_ctrl_recv, List.mem_singleton] at hmem
      rw [Action.prepareOut.injEq] at hmem
      obtain ⟨rfl, rfl⟩ := hmem
      omega
    · simp only [usb_lld_ctrl_recv]
      omega
  · intro d rxLen B hB hlen hrx
    have hsub : sub32 d.ctrl_data.len (rxLen % 128) = d.ctrl_data.len - rxLen % 128 :=
      sub32_of_le hrx (by simp only [M32]; omega)
    have := pktsizeOf_le env.hw.diepBits
    constructor
    · intro a l2 hmem
      simp only [handle_datastage_out, hsub] at hmem
      split_ifs at hmem <;> simp_all
      omega
    · simp only [handle_datastage_out, hsub]
      split_ifs <;> simp <;> omega

/-- C9 witness: an 8-byte unaligned send stages a copy of 8 ≤ 64 bytes, and
an armed 64-byte DFU reception stays within rx_buffer + 64. -/
theorem c9_buffer_bounds_witness :
    Action.memcpyCtrlSendBuf 0x4001 8 ∈ (usb_lld_ctrl_send env0.hw 0x4001 8
      ⟨CONTROL_STATE.WAIT_SETUP, ⟨0x0680, 1, 0, 8⟩, ⟨0, 0, false⟩⟩).2 ∧
    (8 : Nat) ≤ 64 ∧
    (usb_lld_ctrl_recv env0.hw rxA 64
        ⟨CONTROL_STATE.WAIT_SETUP, ⟨0x0680, 1, 0, 8⟩, ⟨0, 0, false⟩⟩).1.ctrl_data.addr +
      (usb_lld_ctrl_recv env0.hw rxA 64
        ⟨CONTROL_STATE.WAIT_SETUP, ⟨0x0680, 1, 0, 8⟩, ⟨0, 0, false⟩⟩).1.ctrl_data.len ≤
      rxA + 64 := by
  refine ⟨by decide, ?_, ?_⟩
  · exact (c9_buffer_bounds_under_capacity_preconditions env0).1 0x4001 8
      ⟨CONTROL_STATE.WAIT_SETUP, ⟨0x0680, 1, 0, 8⟩, ⟨0, 0, false⟩⟩ 0x4001 8
      (by decide) (by decide)
  · exact ((c9_buffer_bounds_under_capacity_preconditions env0).2.1 64
      ⟨CONTROL_STATE.WAIT_SETUP, ⟨0x0680, 1, 0, 8⟩, ⟨0, 0, false⟩⟩ (by decide)).2

/-- C10: an OUT-endpoint-0 transfer-complete event without a SETUP packet,
received while the device rests in WAIT_SETUP, is ignored: the engine state
is unchanged and no driver or backend call is made. -/
theorem c10_out_event_in_wait_setup_ignored (env : Env) (e : Engine) (n : Nat)
    (h : e.dev.state = CONTROL_STATE.WAIT_SETUP) :
    step env e (Ev.out0 n) = (e, []) := by
  simp [step, h]

/-- C10 witness: at the reset state, a spurious OUT completion leaves the
engine untouched with an empty action trace. -/
theorem c10_out_event_in_wait_setup_ignored_witness :
    step env0 eng0 (Ev.out0 5) = (eng0, []) :=
  c10_out_event_in_wait_setup_ignored env0 eng0 5 rfl

end Toboot
